import Mathlib

/-!
Shallow embedding of the pymeasure instrument drivers
(`src/pymeasure/instruments/...`) and proofs about the claims of the
specification.

The drivers are thin request/response glue: each public method either
writes a SCPI command string to the transport, or queries it and
post-processes the reply.  We embed each method as a pure Lean function:

* a status check becomes a function from the integer register value
  (the parsed reply of `:STAT:MEAS:COND?` or `*STB?`) to `Bool`;
* a buffer retrieval becomes a function from the parsed numeric reply
  sequence of `TRAC:DATA?` (a `List ℚ`) to the value the Python method
  returns — `Option` where the Python code can raise (division by zero);
* a trigger method becomes the list of transport/timing events it
  performs, with the exact command string it writes;
* a property setter becomes a function from the candidate logical value
  to the command it sends (`Except` capturing the `InvalidValue` path).
-/

namespace PyMeasure

/-- A transport-level or timing event performed by a driver method. -/
inductive Event where
  | write (cmd : String)
  | query (cmd : String)
  | sleep (seconds : Nat)
deriving Repr, DecidableEq

/-- Errors a property setter can raise before anything is sent. -/
inductive PyError where
  | invalidValue
deriving Repr, DecidableEq

/-- A string of `n` spaces (used to reproduce the whitespace that Python
line continuations leave inside the compound trigger strings). -/
def sp (n : Nat) : String := String.mk (List.replicate n ' ')

/-- The commands actually sent by a setter outcome: the single formatted
command on success, nothing when validation failed first. -/
def sentCommands : Except PyError String → List String
  | .ok c => [c]
  | .error _ => []

namespace Keithley2182A

/-- `Keithley2182A.check_status` (keithley2182a.py:155-159): `status()`
parses the `:STAT:MEAS:COND?` reply as an integer; `check_status` returns
`False` when it is `< 896` and `True` otherwise. -/
def check_status (status : Int) : Bool :=
  if status < 896 then false else true

/-- The exact compound command string written by `Keithley2182A.trigger`
(keithley2182a.py:146-152).  The Python source spreads the literal over
six physical lines joined by backslash line continuations; the trailing
spaces before each backslash and the 24 leading spaces of each
continuation line are part of the string. -/
def triggerCmd : String :=
  ":TRAC:CLE;" ++ sp 33 ++ ":SENS:FUNC 'VOLT';" ++ sp 30 ++
  ":TRAC:POIN 100;" ++ sp 33 ++ ":TRAC:FEED:CONT NEXT;" ++ sp 27 ++
  ":TRAC:FEED SENS;" ++ sp 32 ++ ":INIT:CONT 1"

/-- `Keithley2182A.trigger` (keithley2182a.py:146-153): one `write` of the
compound command string, then `time.sleep(1)`. -/
def trigger : List Event := [Event.write triggerCmd, Event.sleep 1]

/-- `Keithley2182A.get_buffer` (keithley2182a.py:161-163):
`query_ascii_values("TRAC:DATA?")` parses the reply into a list of
numbers, which the method returns unchanged. -/
def get_buffer (reply : List ℚ) : List ℚ := reply

end Keithley2182A

namespace Keithley6430

/-- `Keithley6430.check_status` (keithley6430.py:52-56): `status()` parses
the `:STAT:MEAS:COND?` reply as an integer; `check_status` returns `False`
when it is `< 768` and `True` otherwise. -/
def check_status (status : Int) : Bool :=
  if status < 768 then false else true

/-- `Keithley6430.get_buffer` (keithley6430.py:58-62):
`query_ascii_values("TRAC:DATA?")` parses the reply into a list of
numbers, then `sum(voltage) / len(voltage)` is returned.  The Python
division raises `ZeroDivisionError` when the list is empty; the embedding
returns `none` there. -/
def get_buffer (reply : List ℚ) : Option ℚ :=
  if reply.length = 0 then none
  else some (reply.sum / (reply.length : ℚ))

end Keithley6430

namespace Keithley2420

/-- `Keithley2420.is_buffer_full` (keithley2420.py:238-241):
`int(self.ask("*STB?"))` is compared with `== 65`. -/
def is_buffer_full (status_bit : Int) : Bool :=
  status_bit == 65

end Keithley2420

/-- Modelled from the spec: the `strict_discrete_set` validator together
with the set path of a mapped `Instrument.control` property (the generic
machinery lives in `pymeasure/instruments/validators.py` and
`pymeasure/instruments/__init__.py`, which are not under `src/`).  The
candidate logical value must equal one of the enumerated keys; if not,
the set fails with `InvalidValue` before any command is transmitted; if
so, the mapped wire value is substituted into the write-format string
(all affected patterns are `... %d`, so the wire integer is appended
after the fixed prefix) and sent. -/
def setDiscrete {K : Type} [BEq K] (valueMap : List (K × Int))
    (pre : String) (x : K) : Except PyError String :=
  match valueMap.lookup x with
  | some wire => .ok (pre ++ toString wire)
  | none => .error .invalidValue

/-- Modelled from the spec: the get path of a mapped property — the wire
value returned by the instrument is looked up in the value map to yield
the logical value presented to the caller. -/
def getDiscrete {K : Type} (valueMap : List (K × Int)) (wire : Int) : Option K :=
  (valueMap.find? (fun p => p.2 == wire)).map (fun p => p.1)

/-- The set-then-get round trip of a mapped property: the setter sends
the wire value `valueMap.lookup x`; the instrument echoes that wire value
back on the subsequent query, and the getter maps it back to a logical
key via `getDiscrete`. -/
def roundTrip {K : Type} [BEq K] (valueMap : List (K × Int)) (x : K) : Option K :=
  (valueMap.lookup x).bind (getDiscrete valueMap)

/-- Modelled from the spec: the `truncated_range` validator — clamp the
numeric value into the inclusive bounds `[lo, hi]`; out-of-range input is
silently clamped, never rejected. -/
def truncated_range (v lo hi : ℚ) : ℚ :=
  if v < lo then lo else if hi < v then hi else v

/-- A formatted numeric write: the printf-style write pattern of the
property together with the numeric argument substituted into it (the
`%g` rendering itself is abstracted away; which number is sent is what
the claims are about). -/
structure WireCmd where
  pattern : String
  arg : ℚ
deriving Repr, DecidableEq

/-- Modelled from the spec: the set path of a range-truncated
`Instrument.control` property — clamp into the declared bounds, then
format into the write pattern and send.  Total: no input is rejected. -/
def setTruncated (lo hi : ℚ) (pattern : String) (v : ℚ) : WireCmd :=
  ⟨pattern, truncated_range v lo hi⟩

namespace LakeShore330

/-- `LakeShore330.heater_range` value map (lakeshore330.py:69-77):
`{'off': 0, 'low': 1, 'medium': 2, 'high': 3}`. -/
def heaterRangeValues : List (String × Int) :=
  [("off", 0), ("low", 1), ("medium", 2), ("high", 3)]

/-- Set path of `LakeShore330.heater_range`: write pattern `RANG %d`,
`strict_discrete_set` over `heaterRangeValues`. -/
def setHeaterRange (x : String) : Except PyError String :=
  setDiscrete heaterRangeValues "RANG " x

/-- `LakeShore330.setpoint` set path (lakeshore330.py:61-67):
`truncated_range` over `[0, 475]`, write pattern `SETP %g`. -/
def setSetpoint (v : ℚ) : WireCmd :=
  setTruncated 0 475 "SETP %g" v

end LakeShore330

namespace Keithley2420

/-- `Keithley2420.source_enabled` value map (keithley2420.py:99-107):
`{True: 1, False: 0}`. -/
def sourceEnabledValues : List (Bool × Int) := [(true, 1), (false, 0)]

/-- Set path of `Keithley2420.source_enabled`: write pattern `OUTPut %d`,
`strict_discrete_set` over `sourceEnabledValues`. -/
def setSourceEnabled (x : Bool) : Except PyError String :=
  setDiscrete sourceEnabledValues "OUTPut " x

/-- `Keithley2420.source_current` set path (keithley2420.py:109-115):
`truncated_range` over `[-1.05, 1.05]`, write pattern
`:SOUR:CURR:LEV %g`. -/
def setSourceCurrent (v : ℚ) : WireCmd :=
  setTruncated (-1.05) 1.05 ":SOUR:CURR:LEV %g" v

/-- `Keithley2420.wires` value map (keithley2420.py:165-174):
`{4: 1, 2: 0}`. -/
def wiresValues : List (Int × Int) := [(4, 1), (2, 0)]

end Keithley2420

namespace LI5640

/-- `LI5640.source` value map (li5640.py:89-97):
`{"Ref": 0, "Int": 1, "Signal": 2}`. -/
def sourceValues : List (String × Int) :=
  [("Ref", 0), ("Int", 1), ("Signal", 2)]

/-- Set path of `LI5640.source`: write pattern `RSRC %d`,
`strict_discrete_set` over `sourceValues`. -/
def setSource (x : String) : Except PyError String :=
  setDiscrete sourceValues "RSRC " x

end LI5640

namespace TDS380

/-- `TDS380.data_width` set path (tds380.py:62-67).  The declaration
lists candidate values `[1, 2]` but passes no `validator` (and
`map_values=False`); modelled from the spec, `Instrument.control` without
a validator applies the identity, so every integer is formatted into
`DAT:WID %d` and sent unchanged — no rejection, no clamping. -/
def set_data_width (v : Int) : Except PyError String :=
  .ok ("DAT:WID " ++ toString v)

end TDS380

end PyMeasure

open PyMeasure

/-- C2: `check_status` of the ≥896 variant (Keithley2182A) returns `False`
exactly when the status-condition register value is below 896 (so `False`
at 895, `True` at 896), and `check_status` of the ≥768 variant
(Keithley6430) returns `False` exactly when the value is below 768 (so
`False` at 767, `True` at 768), for every integer register value. -/
theorem C2_check_status_thresholds (s : Int) :
    (Keithley2182A.check_status s = false ↔ s < 896) ∧
    (Keithley2182A.check_status s = true ↔ 896 ≤ s) ∧
    (Keithley6430.check_status s = false ↔ s < 768) ∧
    (Keithley6430.check_status s = true ↔ 768 ≤ s) := by
  unfold Keithley2182A.check_status Keithley6430.check_status
  refine ⟨?_, ?_, ?_, ?_⟩ <;> split_ifs <;> simp_all

/-- C3: `Keithley2420.is_buffer_full` returns `True` iff the integer
parsed from the `*STB?` reply equals exactly 65; every other integer
value yields `False`. -/
theorem C3_is_buffer_full_eq_65 (s : Int) :
    Keithley2420.is_buffer_full s = true ↔ s = 65 := by
  unfold Keithley2420.is_buffer_full
  exact beq_iff_eq

/-- C10: both `check_status` functions are monotone threshold checks: for
all integer register values `a ≤ b`, completion at `a` implies completion
at `b`; and every value at or above the threshold (896, resp. 768)
reports completion. -/
theorem C10_check_status_monotone (a b : Int) (hab : a ≤ b) :
    (Keithley2182A.check_status a = true → Keithley2182A.check_status b = true) ∧
    (Keithley6430.check_status a = true → Keithley6430.check_status b = true) ∧
    (896 ≤ b → Keithley2182A.check_status b = true) ∧
    (768 ≤ b → Keithley6430.check_status b = true) := by
  unfold Keithley2182A.check_status Keithley6430.check_status
  refine ⟨?_, ?_, ?_, ?_⟩ <;> split_ifs <;> simp_all <;> omega

/-- C10 witness: at `a = 896 ≤ b = 1000` the 2182A check reports
completion at both, and at `768 ≤ 1000` the 6430 check does too. -/
theorem C10_check_status_monotone_witness :
    (896 : Int) ≤ 1000 ∧
    (Keithley2182A.check_status 896 = true → Keithley2182A.check_status 1000 = true) ∧
    (Keithley6430.check_status 896 = true → Keithley6430.check_status 1000 = true) ∧
    ((896 : Int) ≤ 1000 → Keithley2182A.check_status 1000 = true) ∧
    ((768 : Int) ≤ 1000 → Keithley6430.check_status 1000 = true) :=
  ⟨by decide, C10_check_status_monotone 896 1000 (by decide)⟩

/-- C8: `Keithley6430.get_buffer` divides the sample sum by the sample
count without guarding the empty case: the empty parsed reply hits the
division-by-zero branch (modelled as `none`) at the public interface,
while every non-empty reply yields a value. -/
theorem C8_get_buffer_div_by_zero :
    Keithley6430.get_buffer [] = none ∧
    ∀ reply : List ℚ, reply ≠ [] → ∃ v, Keithley6430.get_buffer reply = some v := by
  constructor
  · rfl
  · intro reply h
    refine ⟨reply.sum / (reply.length : ℚ), ?_⟩
    unfold Keithley6430.get_buffer
    rw [if_neg]
    simpa using h

/-- C8 witness: the non-empty reply `[5]` yields a value; the premise
`[5] ≠ []` is discharged concretely. -/
theorem C8_get_buffer_div_by_zero_witness :
    ∃ v, Keithley6430.get_buffer [5] = some v :=
  C8_get_buffer_div_by_zero.2 [5] (by decide)

/-- C7: `Keithley2182A.trigger` performs exactly one transport write of one
compound command string — containing, in order and separated only by
whitespace filler from the Python line continuations, the six commands
clear trace buffer, select measurement function, set buffer size to 100,
set append mode, select buffer feed source, enable continuous initiation —
followed only by the fixed 1-second settle delay. -/
theorem C7_trigger_compound :
    Keithley2182A.trigger = [Event.write Keithley2182A.triggerCmd, Event.sleep 1] ∧
    ∃ n1 n2 n3 n4 n5 : Nat,
      Keithley2182A.triggerCmd =
        ":TRAC:CLE;" ++ sp n1 ++ ":SENS:FUNC 'VOLT';" ++ sp n2 ++
        ":TRAC:POIN 100;" ++ sp n3 ++ ":TRAC:FEED:CONT NEXT;" ++ sp n4 ++
        ":TRAC:FEED SENS;" ++ sp n5 ++ ":INIT:CONT 1" :=
  ⟨rfl, 33, 30, 33, 27, 32, rfl⟩

/-- C1 counterexample: at the reply sequence `[1, 2, 3]` the
voltage-measurement variant `Keithley2182A.get_buffer` returns the sample
sequence itself, not a reduction to its arithmetic mean `2`: the claim
attributes the mean reduction to the wrong driver. -/
theorem C1_counterexample :
    Keithley2182A.get_buffer [1, 2, 3] = [1, 2, 3] ∧
    Keithley2182A.get_buffer [1, 2, 3] ≠ [(1 + 2 + 3) / 3] := by
  refine ⟨rfl, ?_⟩
  simp [Keithley2182A.get_buffer]

/-- C1 amended: the arithmetic-mean reduction lives in `Keithley6430` (the
variant whose trigger selects `:SENS:FUNC 'CURR'`), not in `Keithley2182A`
(the `:SENS:FUNC 'VOLT'` variant): `Keithley2182A.get_buffer` returns the
parsed `TRAC:DATA?` reply sequence unreduced, while `Keithley6430.get_buffer`
returns (sum of xs) / (length of xs) for every non-empty reply xs. -/
theorem C1_mean_reduction_in_6430 :
    (∀ reply : List ℚ, Keithley2182A.get_buffer reply = reply) ∧
    ∀ reply : List ℚ, reply ≠ [] →
      Keithley6430.get_buffer reply = some (reply.sum / (reply.length : ℚ)) := by
  refine ⟨fun _ => rfl, fun reply h => ?_⟩
  unfold Keithley6430.get_buffer
  rw [if_neg (by simpa using h)]

/-- C1 witness: at the non-empty reply `[1, 2, 3]` the 6430 variant
returns the arithmetic mean, which evaluates to `2`. -/
theorem C1_mean_reduction_in_6430_witness :
    Keithley6430.get_buffer [1, 2, 3] = some 2 := by
  have h := C1_mean_reduction_in_6430.2 [1, 2, 3] (by decide)
  rw [h]
  norm_num

/-- C4: for the discrete-set properties `LakeShore330.heater_range`,
`Keithley2420.source_enabled` and `LI5640.source`, setting a value that is
not one of the enumerated keys yields `InvalidValue` with nothing sent to
the transport, while setting an enumerated key sends exactly the mapped
wire token. -/
theorem C4_discrete_set_fail_fast :
    (∀ x : String, x ∉ ["off", "low", "medium", "high"] →
       LakeShore330.setHeaterRange x = .error .invalidValue ∧
       sentCommands (LakeShore330.setHeaterRange x) = []) ∧
    LakeShore330.setHeaterRange "off" = .ok "RANG 0" ∧
    LakeShore330.setHeaterRange "low" = .ok "RANG 1" ∧
    LakeShore330.setHeaterRange "medium" = .ok "RANG 2" ∧
    LakeShore330.setHeaterRange "high" = .ok "RANG 3" ∧
    Keithley2420.setSourceEnabled true = .ok "OUTPut 1" ∧
    Keithley2420.setSourceEnabled false = .ok "OUTPut 0" ∧
    (∀ x : String, x ∉ ["Ref", "Int", "Signal"] →
       LI5640.setSource x = .error .invalidValue ∧
       sentCommands (LI5640.setSource x) = []) ∧
    LI5640.setSource "Ref" = .ok "RSRC 0" ∧
    LI5640.setSource "Int" = .ok "RSRC 1" ∧
    LI5640.setSource "Signal" = .ok "RSRC 2" := by
  refine ⟨?_, rfl, rfl, rfl, rfl, rfl, rfl, ?_, rfl, rfl, rfl⟩
  · intro x hx
    simp only [List.mem_cons, List.not_mem_nil, or_false, not_or] at hx
    obtain ⟨h1, h2, h3, h4⟩ := hx
    have b1 : (x == "off") = false := beq_eq_false_iff_ne.mpr h1
    have b2 : (x == "low") = false := beq_eq_false_iff_ne.mpr h2
    have b3 : (x == "medium") = false := beq_eq_false_iff_ne.mpr h3
    have b4 : (x == "high") = false := beq_eq_false_iff_ne.mpr h4
    unfold LakeShore330.setHeaterRange setDiscrete LakeShore330.heaterRangeValues
    simp [List.lookup, b1, b2, b3, b4, sentCommands]
  · intro x hx
    simp only [List.mem_cons, List.not_mem_nil, or_false, not_or] at hx
    obtain ⟨h1, h2, h3⟩ := hx
    have b1 : (x == "Ref") = false := beq_eq_false_iff_ne.mpr h1
    have b2 : (x == "Int") = false := beq_eq_false_iff_ne.mpr h2
    have b3 : (x == "Signal") = false := beq_eq_false_iff_ne.mpr h3
    unfold LI5640.setSource setDiscrete LI5640.sourceValues
    simp [List.lookup, b1, b2, b3, sentCommands]

/-- C4 witness: at the non-enumerated value `"banana"` both discrete-set
setters fail with `InvalidValue` and send nothing. -/
theorem C4_discrete_set_fail_fast_witness :
    ("banana" ∉ (["off", "low", "medium", "high"] : List String)) ∧
    LakeShore330.setHeaterRange "banana" = .error .invalidValue ∧
    sentCommands (LakeShore330.setHeaterRange "banana") = [] ∧
    LI5640.setSource "banana" = .error .invalidValue := by
  refine ⟨by decide, ?_, ?_, ?_⟩
  · exact (C4_discrete_set_fail_fast.1 "banana" (by decide)).1
  · exact (C4_discrete_set_fail_fast.1 "banana" (by decide)).2
  · exact (C4_discrete_set_fail_fast.2.2.2.2.2.2.2.1 "banana" (by decide)).1

/-- C5: the range-truncated properties `LakeShore330.setpoint`
(bounds `[0, 475]`) and `Keithley2420.source_current` (bounds
`[-1.05, 1.05]`) clamp below-minimum input to the minimum, above-maximum
input to the maximum, and pass in-range input through verbatim, always
under the property's write pattern; the setters are total, so no input
causes an error. -/
theorem C5_truncated_range_clamps (v : ℚ) :
    (v < 0 → LakeShore330.setSetpoint v = ⟨"SETP %g", 0⟩) ∧
    (475 < v → LakeShore330.setSetpoint v = ⟨"SETP %g", 475⟩) ∧
    (0 ≤ v → v ≤ 475 → LakeShore330.setSetpoint v = ⟨"SETP %g", v⟩) ∧
    (v < -1.05 → Keithley2420.setSourceCurrent v = ⟨":SOUR:CURR:LEV %g", -1.05⟩) ∧
    (1.05 < v → Keithley2420.setSourceCurrent v = ⟨":SOUR:CURR:LEV %g", 1.05⟩) ∧
    (-1.05 ≤ v → v ≤ 1.05 → Keithley2420.setSourceCurrent v = ⟨":SOUR:CURR:LEV %g", v⟩) := by
  unfold LakeShore330.setSetpoint Keithley2420.setSourceCurrent setTruncated truncated_range
  refine ⟨fun h => ?_, fun h => ?_, fun h h' => ?_, fun h => ?_, fun h => ?_, fun h h' => ?_⟩ <;>
    split_ifs <;> first | rfl | (exfalso; linarith)

/-- C5 witness: setpoint input `-5` clamps to `0`, input `500` clamps to
`475`, in-range input `300` passes through; source-current input `2`
clamps to `1.05`. -/
theorem C5_truncated_range_clamps_witness :
    ((-5 : ℚ) < 0 ∧ LakeShore330.setSetpoint (-5) = ⟨"SETP %g", 0⟩) ∧
    ((475 : ℚ) < 500 ∧ LakeShore330.setSetpoint 500 = ⟨"SETP %g", 475⟩) ∧
    ((0 : ℚ) ≤ 300 ∧ (300 : ℚ) ≤ 475 ∧ LakeShore330.setSetpoint 300 = ⟨"SETP %g", 300⟩) ∧
    ((1.05 : ℚ) < 2 ∧ Keithley2420.setSourceCurrent 2 = ⟨":SOUR:CURR:LEV %g", 1.05⟩) := by
  refine ⟨⟨by norm_num, (C5_truncated_range_clamps (-5)).1 (by norm_num)⟩,
          ⟨by norm_num, (C5_truncated_range_clamps 500).2.1 (by norm_num)⟩,
          ⟨by norm_num, by norm_num,
            (C5_truncated_range_clamps 300).2.2.1 (by norm_num) (by norm_num)⟩,
          ⟨by norm_num, (C5_truncated_range_clamps 2).2.2.2.2.1 (by norm_num)⟩⟩

/-- C6: for the mapped discrete-set properties, the set-then-get round
trip is the identity on every enumerated key: the setter substitutes the
mapped wire value and the getter looks the echoed wire value back up to
recover the logical key. -/
theorem C6_round_trip_identity :
    (∀ x : String, x ∈ ["Ref", "Int", "Signal"] →
       roundTrip LI5640.sourceValues x = some x) ∧
    (∀ x : Int, x ∈ [4, 2] → roundTrip Keithley2420.wiresValues x = some x) ∧
    (∀ x : String, x ∈ ["off", "low", "medium", "high"] →
       roundTrip LakeShore330.heaterRangeValues x = some x) ∧
    (∀ x : Bool, roundTrip Keithley2420.sourceEnabledValues x = some x) := by
  refine ⟨?_, ?_, ?_, ?_⟩
  · intro x hx
    fin_cases hx <;> rfl
  · intro x hx
    fin_cases hx <;> rfl
  · intro x hx
    fin_cases hx <;> rfl
  · intro x
    cases x <;> rfl

/-- C6 witness: the round trip is checked concretely at `"Ref"` for
`LI5640.source` and at `4` for `Keithley2420.wires`. -/
theorem C6_round_trip_identity_witness :
    roundTrip LI5640.sourceValues "Ref" = some "Ref" ∧
    roundTrip Keithley2420.wiresValues 4 = some 4 :=
  ⟨C6_round_trip_identity.1 "Ref" (by decide),
   C6_round_trip_identity.2.1 4 (by decide)⟩

/-- C9: `TDS380.data_width` has candidate values `[1, 2]` but no
validator, so every integer — also one outside `{1, 2}` such as `7` — is
formatted into `DAT:WID %d` and sent unchanged, and no `InvalidValue` is
ever raised. -/
theorem C9_data_width_unvalidated (v : Int) :
    TDS380.set_data_width v = .ok ("DAT:WID " ++ toString v) ∧
    sentCommands (TDS380.set_data_width v) = ["DAT:WID " ++ toString v] ∧
    TDS380.set_data_width 7 = .ok "DAT:WID 7" := by
  refine ⟨rfl, rfl, rfl⟩
